import Mathlib

/-!
Verification development for the usvg-scenes XML scene reader
(`reader.hpp`).  The reader loads diffusion curves, Poisson curves and
gradient meshes from a structured XML document into an in-memory scene.

Modelling conventions:
* C++ `double` values are modelled by `ℚ`, `int` by `ℤ`.
* The XML library (tinyxml2) is an external collaborator; an element is
  modelled as a tag, typed attribute maps (each C++ query reads a given
  attribute with exactly one type) and a child list.  `Query*Attribute`
  leaves its output argument unchanged when the attribute is absent, which
  the model reproduces by returning the current value.
* The C++ reader declares the point/color records without initialising
  them (`point_type p;`), so a channel whose attribute is absent keeps an
  indeterminate value.  The model makes this explicit: every such
  indeterminate double is represented by an arbitrary parameter `junk`
  that theorems quantify over.
* `throw std::runtime_error` is modelled by `Except load_error`; each
  distinct error message becomes a constructor carrying the same data
  (tag name, element index) that the message interpolates.
-/

/-- A 2D point (x, y); C++ `std::array<double, 2>`. -/
abbrev point_type := ℚ × ℚ

/-- A 3D color (r, g, b); C++ `std::array<double, 3>`. -/
abbrev color_type := ℚ × ℚ × ℚ

/-- A 3D color at a parameter location (r, g, b, t); C++ `std::array<double, 4>`. -/
abbrev color_point_type := ℚ × ℚ × ℚ × ℚ

/-- Types of boundary conditions. -/
inductive boundary_condition where
  | Neumann : boundary_condition
  | Dirichlet : boundary_condition
deriving DecidableEq

/-- Diffusion curve. -/
structure diffusion_curve where
  control_points : List point_type
  colors_left : List color_point_type
  colors_right : List color_point_type
  boundary_left : boundary_condition
  boundary_right : boundary_condition
deriving DecidableEq

/-- Poisson curve. -/
structure poisson_curve where
  control_points : List point_type
  weights : List color_point_type
deriving DecidableEq

/-- Gradient mesh. -/
structure gradient_mesh where
  num_rows : ℤ
  num_cols : ℤ
  positions : List point_type
  colors : List color_type
  tangents_u : List point_type
  tangents_v : List point_type
deriving DecidableEq

/-- The scene model: the collections filled by the reader plus the image
dimensions (fields in the declaration order of the C++ class). -/
structure scene where
  diffusion_curves : List diffusion_curve
  poisson_curves : List poisson_curve
  gradient_meshes : List gradient_mesh
  height : ℤ
  width : ℤ
deriving DecidableEq

/-- An XML element as seen through the tinyxml2 interface used by the
reader: a tag name, attributes (split by the type they are queried with)
and the list of child elements. -/
inductive xml_element where
  | mk : String → List (String × ℤ) → List (String × ℚ) →
      List (String × String) → List (String × Bool) →
      List xml_element → xml_element

def xml_element.tag : xml_element → String
  | .mk t _ _ _ _ _ => t

def xml_element.int_attrs : xml_element → List (String × ℤ)
  | .mk _ a _ _ _ _ => a

def xml_element.num_attrs : xml_element → List (String × ℚ)
  | .mk _ _ a _ _ _ => a

def xml_element.str_attrs : xml_element → List (String × String)
  | .mk _ _ _ a _ _ => a

def xml_element.bool_attrs : xml_element → List (String × Bool)
  | .mk _ _ _ _ a _ => a

def xml_element.children : xml_element → List xml_element
  | .mk _ _ _ _ _ c => c

/-- Look up an attribute by name in an attribute list. -/
def attr_find {α : Type} (l : List (String × α)) (n : String) : Option α :=
  (l.find? (fun p => p.1 == n)).map (fun p => p.2)

/-- `QueryIntAttribute`: the current value is kept when the attribute is absent. -/
def query_int (e : xml_element) (n : String) (cur : ℤ) : ℤ :=
  (attr_find e.int_attrs n).getD cur

/-- `QueryDoubleAttribute`: the current value is kept when the attribute is absent. -/
def query_num (e : xml_element) (n : String) (cur : ℚ) : ℚ :=
  (attr_find e.num_attrs n).getD cur

/-- `QueryBoolAttribute`: the current value is kept when the attribute is absent. -/
def query_bool (e : xml_element) (n : String) (cur : Bool) : Bool :=
  (attr_find e.bool_attrs n).getD cur

/-- `Attribute(n)` for a string-valued attribute (`boundary`). -/
def attr_str (e : xml_element) (n : String) : Option String :=
  attr_find e.str_attrs n

/-- `Attribute(n) != nullptr` for the numeric color attributes `R`, `G`, `B`. -/
def has_num_attr (e : xml_element) (n : String) : Bool :=
  (attr_find e.num_attrs n).isSome

/-- The children of `e` named `n`, in document order: the sequence visited
by `FirstChildElement(n)` followed by `NextSiblingElement(n)`. -/
def child_elements (e : xml_element) (n : String) : List xml_element :=
  e.children.filter (fun c => c.tag == n)

/-- `FirstChildElement(n)`. -/
def first_child (e : xml_element) (n : String) : Option xml_element :=
  (child_elements e n).head?

/-- One constructor per distinct `std::runtime_error` thrown by the reader,
carrying the data interpolated into the message. -/
inductive load_error where
  | cannot_open_file : load_error
  | cannot_load_xml : load_error
  | cannot_find_scene : load_error
  | unrecognized_doctype : load_error
  | cannot_read_curve : ℕ → load_error
  | cannot_read_control_points : ℕ → load_error
  | cannot_read_left_colors : ℕ → load_error
  | cannot_read_right_colors : ℕ → load_error
  | cannot_read_weights : ℕ → load_error
  | cannot_read_mesh : ℕ → load_error
  | position_count_mismatch : ℕ → load_error
  | color_count_mismatch : ℕ → load_error
  | cannot_read_positions : ℕ → load_error
  | cannot_read_mesh_colors : ℕ → load_error
  | cannot_read : String → load_error
  | cannot_read_item : String → ℕ → load_error
deriving DecidableEq

/-- Decode one point element: query `x` and `y` into an uninitialised
record (modelled by `junk`), scale by the image dimensions if normalized
(x by height, y by width), then swap the components if requested. -/
def decode_point (junk : ℚ) (w h : ℤ) (is_normalized swap : Bool)
    (e : xml_element) : point_type :=
  let x := query_num e "x" junk
  let y := query_num e "y" junk
  let x2 := if is_normalized then x * (h : ℚ) else x
  let y2 := if is_normalized then y * (w : ℚ) else y
  if swap then (y2, x2) else (x2, y2)

/-- The point-reading loop of `read_points`: `i` is the loop counter used
in error messages, the `ℕ` argument is the remaining trip count, and the
list holds the remaining siblings named `name`. -/
def read_points_core (junk : ℚ) (w h : ℤ) (is_normalized swap : Bool)
    (name : String) : ℕ → ℕ → List xml_element →
    Except load_error (List point_type)
  | _, 0, _ => .ok []
  | i, _ + 1, [] => .error (.cannot_read_item name i)
  | i, n + 1, c :: rest =>
    match read_points_core junk w h is_normalized swap name (i + 1) n rest with
    | .ok ps => .ok (decode_point junk w h is_normalized swap c :: ps)
    | .error err => .error err

/-- `read_points`: fails if no child named `name` exists at all, then reads
`max 0 num_points` consecutive siblings (the C++ loop `for (i = 0; i < n; i++)`
runs `n.toNat` times). -/
def read_points (junk : ℚ) (w h : ℤ) (parent : xml_element) (name : String)
    (num_points : ℤ) (is_normalized swap : Bool) :
    Except load_error (List point_type) :=
  let cs := child_elements parent name
  if cs.isEmpty then .error (.cannot_read name)
  else read_points_core junk w h is_normalized swap name 0 num_points.toNat cs

/-- Decode one color channel: an uppercase attribute is divided by 255,
otherwise the lowercase attribute is queried into the uninitialised slot. -/
def decode_channel (junk : ℚ) (e : xml_element) (upper lower : String) : ℚ :=
  if has_num_attr e upper then query_num e upper junk / 255
  else query_num e lower junk

/-- Decode one color element, swapping the R and B components if requested. -/
def decode_color (junk : ℚ) (swap : Bool) (e : xml_element) : color_type :=
  let r := decode_channel junk e "R" "r"
  let g := decode_channel junk e "G" "g"
  let b := decode_channel junk e "B" "b"
  if swap then (b, g, r) else (r, g, b)

/-- The color-reading loop of `read_colors`. -/
def read_colors_core (junk : ℚ) (swap : Bool) (name : String) :
    ℕ → ℕ → List xml_element → Except load_error (List color_type)
  | _, 0, _ => .ok []
  | i, _ + 1, [] => .error (.cannot_read_item name i)
  | i, n + 1, c :: rest =>
    match read_colors_core junk swap name (i + 1) n rest with
    | .ok cs => .ok (decode_color junk swap c :: cs)
    | .error err => .error err

/-- `read_colors`. -/
def read_colors (junk : ℚ) (swap : Bool) (parent : xml_element)
    (name : String) (num_colors : ℤ) : Except load_error (List color_type) :=
  let cs := child_elements parent name
  if cs.isEmpty then .error (.cannot_read name)
  else read_colors_core junk swap name 0 num_colors.toNat cs

/-- Decode one color point: the channels as in `decode_color`, plus the
`globalID` attribute as the parameter component. -/
def decode_color_point (junk : ℚ) (swap : Bool) (e : xml_element) :
    color_point_type :=
  let c := decode_color junk swap e
  (c.1, c.2.1, c.2.2, query_num e "globalID" junk)

/-- `maxT` update: the C++ running maximum starts at `-DBL_MAX` and is only
ever assigned values `> 1`, so it is modelled by `Option ℚ` with `none`
standing for the untouched sentinel. -/
def upd_max (cur : Option ℚ) (t : ℚ) : Option ℚ :=
  if 1 < t then
    some (match cur with
          | none => t
          | some m => max m t)
  else cur

/-- The color-point-reading loop of `read_color_points`, threading the
running maximum of the parameter values that exceed 1. -/
def read_color_points_core (junk : ℚ) (swap : Bool) (name : String) :
    ℕ → ℕ → Option ℚ → List xml_element →
    Except load_error (List color_point_type × Option ℚ)
  | _, 0, maxT, _ => .ok ([], maxT)
  | i, _ + 1, _, [] => .error (.cannot_read_item name i)
  | i, n + 1, maxT, c :: rest =>
    let cp := decode_color_point junk swap c
    match read_color_points_core junk swap name (i + 1) n
        (upd_max maxT cp.2.2.2) rest with
    | .ok (cps, m) => .ok (cp :: cps, m)
    | .error err => .error err

/-- `read_color_points`: read the sequence, then divide every parameter by
the recorded maximum when `maxT > 1` (which holds whenever `maxT` was ever
assigned, since only values `> 1` are recorded). -/
def read_color_points (junk : ℚ) (swap : Bool) (parent : xml_element)
    (name : String) (num_points : ℤ) :
    Except load_error (List color_point_type) :=
  let cs := child_elements parent name
  if cs.isEmpty then .error (.cannot_read name)
  else
    match read_color_points_core junk swap name 0 num_points.toNat none cs with
    | .error err => .error err
    | .ok (cps, maxT) =>
      match maxT with
      | some m =>
        if 1 < m then .ok (cps.map (fun cp => (cp.1, cp.2.1, cp.2.2.1, cp.2.2.2 / m)))
        else .ok cps
      | none => .ok cps

/-- The `boundary` attribute: `"Neumann"` selects Neumann, anything else or
an absent attribute leaves the Dirichlet default. -/
def read_boundary (e : xml_element) : boundary_condition :=
  match attr_str e "boundary" with
  | some b => if b = "Neumann" then .Neumann else .Dirichlet
  | none => .Dirichlet

/-- The body of the diffusion-curve loop: build one `diffusion_curve` from
the `i`-th `curve` element, exchanging sides after reading when `swap` is on. -/
def read_curve (junk : ℚ) (w h : ℤ) (swap : Bool) (i : ℕ)
    (ce : xml_element) : Except load_error diffusion_curve :=
  let num_control_points := query_int ce "nb_control_points" 0
  match first_child ce "control_points_set" with
  | none => .error (.cannot_read_control_points i)
  | some pset =>
    match read_points junk w h pset "control_point" num_control_points false swap with
    | .error err => .error err
    | .ok control_points =>
      let num_colors_left := query_int ce "nb_left_colors" 0
      match first_child ce "left_colors_set" with
      | none => .error (.cannot_read_left_colors i)
      | some lset =>
        let boundary_left := read_boundary lset
        match read_color_points junk swap lset "left_color" num_colors_left with
        | .error err => .error err
        | .ok colors_left =>
          let num_colors_right := query_int ce "nb_right_colors" 0
          match first_child ce "right_colors_set" with
          | none => .error (.cannot_read_right_colors i)
          | some rset =>
            let boundary_right := read_boundary rset
            match read_color_points junk swap rset "right_color" num_colors_right with
            | .error err => .error err
            | .ok colors_right =>
              .ok { control_points := control_points
                    colors_left := if swap then colors_right else colors_left
                    colors_right := if swap then colors_left else colors_right
                    boundary_left := if swap then boundary_right else boundary_left
                    boundary_right := if swap then boundary_left else boundary_right }

/-- The diffusion-curve loop: `nb_curves` iterations over the `curve`
siblings, failing with the loop index when the siblings run out. -/
def read_curves_core (junk : ℚ) (w h : ℤ) (swap : Bool) :
    ℕ → ℕ → List xml_element → Except load_error (List diffusion_curve)
  | _, 0, _ => .ok []
  | i, _ + 1, [] => .error (.cannot_read_curve i)
  | i, n + 1, c :: rest =>
    match read_curve junk w h swap i c with
    | .error err => .error err
    | .ok dc =>
      match read_curves_core junk w h swap (i + 1) n rest with
      | .ok dcs => .ok (dc :: dcs)
      | .error err => .error err

/-- `read_diffusion_curves`. -/
def read_diffusion_curves (junk : ℚ) (w h : ℤ) (parent : xml_element)
    (swap : Bool) : Except load_error (List diffusion_curve) :=
  read_curves_core junk w h swap 0 (query_int parent "nb_curves" 0).toNat
    (child_elements parent "curve")

/-- The body of the Poisson-curve loop (control points are never swapped). -/
def read_poisson_curve_at (junk : ℚ) (w h : ℤ) (i : ℕ)
    (ce : xml_element) : Except load_error poisson_curve :=
  let num_control_points := query_int ce "nb_control_points" 0
  match first_child ce "control_points_set" with
  | none => .error (.cannot_read_control_points i)
  | some pset =>
    match read_points junk w h pset "control_point" num_control_points false false with
    | .error err => .error err
    | .ok control_points =>
      let num_weights := query_int ce "nb_weights" 0
      match first_child ce "weights_set" with
      | none => .error (.cannot_read_weights i)
      | some wset =>
        match read_color_points junk false wset "weight" num_weights with
        | .error err => .error err
        | .ok weights => .ok { control_points := control_points, weights := weights }

/-- The Poisson-curve loop. -/
def read_poisson_core (junk : ℚ) (w h : ℤ) :
    ℕ → ℕ → List xml_element → Except load_error (List poisson_curve)
  | _, 0, _ => .ok []
  | i, _ + 1, [] => .error (.cannot_read_curve i)
  | i, n + 1, c :: rest =>
    match read_poisson_curve_at junk w h i c with
    | .error err => .error err
    | .ok pc =>
      match read_poisson_core junk w h (i + 1) n rest with
      | .ok pcs => .ok (pc :: pcs)
      | .error err => .error err

/-- `read_poisson_curves`. -/
def read_poisson_curves (junk : ℚ) (w h : ℤ) (parent : xml_element) :
    Except load_error (List poisson_curve) :=
  read_poisson_core junk w h 0 (query_int parent "nb_curves" 0).toNat
    (child_elements parent "poisson_curve")

/-- The body of the mesh loop: build one `gradient_mesh` from the `i`-th
`mesh` element, checking the declared position and color counts against
`(rows + 1) * (cols + 1)` in turn. -/
def read_mesh (junk : ℚ) (w h : ℤ) (i : ℕ) (me : xml_element) :
    Except load_error gradient_mesh :=
  let num_rows := query_int me "nb_rows" 0
  let num_cols := query_int me "nb_cols" 0
  let is_normalized := query_bool me "normalized" false
  let num_positions := query_int me "nb_positions" 0
  if num_positions ≠ (num_rows + 1) * (num_cols + 1) then
    .error (.position_count_mismatch i)
  else
    match first_child me "position_set" with
    | none => .error (.cannot_read_positions i)
    | some vset =>
      match read_points junk w h vset "position" num_positions is_normalized false with
      | .error err => .error err
      | .ok positions =>
        let num_colors := query_int me "nb_colors" 0
        if num_colors ≠ (num_rows + 1) * (num_cols + 1) then
          .error (.color_count_mismatch i)
        else
          match first_child me "color_set" with
          | none => .error (.cannot_read_mesh_colors i)
          | some cset =>
            match read_colors junk false cset "color" num_colors with
            | .error err => .error err
            | .ok colors =>
              match first_child me "pos_tangent_set" with
              | none =>
                .ok { num_rows := num_rows, num_cols := num_cols
                      positions := positions, colors := colors
                      tangents_u := [], tangents_v := [] }
              | some tset =>
                match read_points junk w h tset "positionU" num_positions is_normalized false with
                | .error err => .error err
                | .ok tangents_u =>
                  match read_points junk w h tset "positionV" num_positions is_normalized false with
                  | .error err => .error err
                  | .ok tangents_v =>
                    .ok { num_rows := num_rows, num_cols := num_cols
                          positions := positions, colors := colors
                          tangents_u := tangents_u, tangents_v := tangents_v }

/-- The mesh loop. -/
def read_meshes_core (junk : ℚ) (w h : ℤ) :
    ℕ → ℕ → List xml_element → Except load_error (List gradient_mesh)
  | _, 0, _ => .ok []
  | i, _ + 1, [] => .error (.cannot_read_mesh i)
  | i, n + 1, c :: rest =>
    match read_mesh junk w h i c with
    | .error err => .error err
    | .ok gm =>
      match read_meshes_core junk w h (i + 1) n rest with
      | .ok gms => .ok (gm :: gms)
      | .error err => .error err

/-- `read_gradient_meshes`. -/
def read_gradient_meshes (junk : ℚ) (w h : ℤ) (parent : xml_element) :
    Except load_error (List gradient_mesh) :=
  read_meshes_core junk w h 0 (query_int parent "nb_meshes" 0).toNat
    (child_elements parent "mesh")

/-- The raw document handed to the loader: the verbatim first line and the
outcome of the XML parse (`none` when tinyxml2 fails; otherwise the list of
top-level elements, of which `FirstChildElement("scene")` picks the first
one named `scene` and `RootElement()` picks the first one outright). -/
structure raw_document where
  first_line : String
  parsed : Option (List xml_element)

/-- The unified (`SceneXML`) branch of the constructor: locate the `scene`
root, read the image dimensions, then each of the three optional sections. -/
def load_unified (junk : ℚ) (tops : List xml_element) :
    Except load_error scene :=
  match tops.find? (fun e => e.tag == "scene") with
  | none => .error .cannot_find_scene
  | some root =>
    let w := query_int root "image_width" 0
    let h := query_int root "image_height" 0
    let dres := match first_child root "curve_set" with
      | none => Except.ok []
      | some ce => read_diffusion_curves junk w h ce false
    match dres with
    | .error err => .error err
    | .ok dcs =>
      let pres := match first_child root "poisson_curve_set" with
        | none => Except.ok []
        | some pe => read_poisson_curves junk w h pe
      match pres with
      | .error err => .error err
      | .ok pcs =>
        let gres := match first_child root "mesh_set" with
          | none => Except.ok []
          | some ge => read_gradient_meshes junk w h ge
        match gres with
        | .error err => .error err
        | .ok gms =>
          .ok { diffusion_curves := dcs, poisson_curves := pcs
                gradient_meshes := gms, height := h, width := w }

/-- The legacy (`CurveSetXML`, Orzan) branch: the document root itself is
the curve container and the swap flag is enabled. -/
def load_legacy (junk : ℚ) (tops : List xml_element) :
    Except load_error scene :=
  match tops.head? with
  | none => .error .cannot_find_scene
  | some root =>
    let w := query_int root "image_width" 0
    let h := query_int root "image_height" 0
    match read_diffusion_curves junk w h root true with
    | .error err => .error err
    | .ok dcs =>
      .ok { diffusion_curves := dcs, poisson_curves := []
            gradient_meshes := [], height := h, width := w }

/-- The `scene` constructor: `none` models a file that cannot be opened;
a failed XML parse is checked next; then the dialect is chosen by literal
comparison of the first line. -/
def load_scene (junk : ℚ) : Option raw_document → Except load_error scene
  | none => .error .cannot_open_file
  | some raw =>
    match raw.parsed with
    | none => .error .cannot_load_xml
    | some tops =>
      if raw.first_line = "<!DOCTYPE SceneXML>" then load_unified junk tops
      else if raw.first_line = "<!DOCTYPE CurveSetXML>" then load_legacy junk tops
      else .error .unrecognized_doctype

/-- Decidable equality for `Except` results of the reader. -/
instance except_decidable_eq {ε α : Type} [DecidableEq ε] [DecidableEq α] :
    DecidableEq (Except ε α) := fun x y =>
  match x, y with
  | .error a, .error b =>
    if h : a = b then .isTrue (congrArg Except.error h)
    else .isFalse (fun hh => h (Except.error.inj hh))
  | .error _, .ok _ => .isFalse (fun hh => Except.noConfusion hh)
  | .ok _, .error _ => .isFalse (fun hh => Except.noConfusion hh)
  | .ok a, .ok b =>
    if h : a = b then .isTrue (congrArg Except.ok h)
    else .isFalse (fun hh => h (Except.ok.inj hh))

/-! ### Specification-side definitions

The following definitions restate, in the words of the specification, the
transformations that the reader is claimed to perform; the theorems below
compare them with the source-derived definitions. -/

/-- Exchange of the x and y components of a point (spec: legacy axis swap). -/
def pswap (p : point_type) : point_type := (p.2, p.1)

/-- Exchange of the first and third channel of a color point
(spec: legacy R/B channel swap; the parameter is untouched). -/
def cswap (cp : color_point_type) : color_point_type :=
  (cp.2.2.1, cp.2.1, cp.1, cp.2.2.2)

/-- The whole-curve effect of the legacy dialect per the spec: left and
right sides (colors and boundary conditions) are exchanged after reading,
every control point has x and y exchanged, and every color entry has its
first and third channels exchanged. -/
def legacy_swap_curve (c : diffusion_curve) : diffusion_curve :=
  { control_points := c.control_points.map pswap
    colors_left := c.colors_right.map cswap
    colors_right := c.colors_left.map cswap
    boundary_left := c.boundary_right
    boundary_right := c.boundary_left }

/-- The parameter (globalID) component of a color point. -/
def cp_param (cp : color_point_type) : ℚ := cp.2.2.2

/-- Maximum of two optional values. -/
def opt_max : Option ℚ → Option ℚ → Option ℚ
  | none, b => b
  | some a, none => some a
  | some a, some b => some (max a b)

/-- Sequence-wide parameter normalization as the spec states it: let `M`
be the maximum parameter value among entries whose value exceeds 1; if
such entries exist, every entry's parameter is divided by `M`, otherwise
the sequence is unchanged. -/
def normalize_params (l : List color_point_type) : List color_point_type :=
  match ((l.map cp_param).filter (fun t => 1 < t)).max? with
  | some m => l.map (fun cp => (cp.1, cp.2.1, cp.2.2.1, cp.2.2.2 / m))
  | none => l

/-- The reading loop of `read_color_points` without the final
normalization pass: the sequence as decoded element by element. -/
def read_color_points_raw (junk : ℚ) (swap : Bool) (parent : xml_element)
    (name : String) (num_points : ℤ) :
    Except load_error (List color_point_type) :=
  let cs := child_elements parent name
  if cs.isEmpty then .error (.cannot_read name)
  else
    match read_color_points_core junk swap name 0 num_points.toNat none cs with
    | .error err => .error err
    | .ok (cps, _) => .ok cps

/-- Per-channel decoding rule as the spec states it: an uppercase
attribute, when present, is divided by 255; otherwise the lowercase
attribute is taken as-is (the indeterminate initial value remains when
both are absent). -/
def channel_rule (upper lower : Option ℚ) (junk : ℚ) : ℚ :=
  match upper with
  | some v => v / 255
  | none => lower.getD junk

/-- The amended gradient-mesh shape invariant: positions and colors both
have length `((R + 1) * (C + 1)).toNat`, and the tangent sequences are
either both empty or both as long as the positions. -/
def mesh_invariant (gm : gradient_mesh) : Prop :=
  gm.positions.length = ((gm.num_rows + 1) * (gm.num_cols + 1)).toNat
  ∧ gm.colors.length = gm.positions.length
  ∧ ((gm.tangents_u = [] ∧ gm.tangents_v = [])
     ∨ (gm.tangents_u.length = gm.positions.length
        ∧ gm.tangents_v.length = gm.positions.length))

/-! ### Concrete documents used in the theorems below -/

/-- Legacy-dialect curve: control point (x=3, y=5), left color
R=255, G=0, B=0 at parameter 0, right color r=g=b=0 at parameter 0. -/
def c1_curve : xml_element := .mk "curve"
  [("nb_control_points", 1), ("nb_left_colors", 1), ("nb_right_colors", 1)] [] [] []
  [.mk "control_points_set" [] [] [] []
     [.mk "control_point" [] [("x", 3), ("y", 5)] [] [] []],
   .mk "left_colors_set" [] [] [] []
     [.mk "left_color" [] [("R", 255), ("G", 0), ("B", 0), ("globalID", 0)] [] [] []],
   .mk "right_colors_set" [] [] [] []
     [.mk "right_color" [] [("r", 0), ("g", 0), ("b", 0), ("globalID", 0)] [] [] []]]

/-- Legacy-dialect root element containing `c1_curve`. -/
def c1_root : xml_element := .mk "curve_set"
  [("nb_curves", 1), ("image_width", 10), ("image_height", 20)] [] [] [] [c1_curve]

/-- A color point element with parameter value `t`. -/
def c2_entry (t : ℚ) : xml_element :=
  .mk "left_color" [] [("r", 1), ("g", 0), ("b", 0), ("globalID", t)] [] [] []

/-- A color-point sequence with parameter values [0, 2, 4]. -/
def c2_set_a : xml_element :=
  .mk "left_colors_set" [] [] [] [] [c2_entry 0, c2_entry 2, c2_entry 4]

/-- A color-point sequence with parameter values [0, 0.3, 0.9]. -/
def c2_set_b : xml_element :=
  .mk "left_colors_set" [] [] [] [] [c2_entry 0, c2_entry (3/10), c2_entry (9/10)]

/-- A point element carrying only a `y` attribute (no `x`). -/
def c3_point_set : xml_element := .mk "control_points_set" [] [] [] []
  [.mk "control_point" [] [("y", 5)] [] [] []]

/-- A unified scene of width 200 and height 100 whose single 1x1 mesh is
normalized and places its only vertex at (x=0.5, y=0.25). -/
def c4_scene_elem : xml_element := .mk "scene"
  [("image_width", 200), ("image_height", 100)] [] [] []
  [.mk "mesh_set" [("nb_meshes", 1)] [] [] []
    [.mk "mesh" [("nb_rows", 0), ("nb_cols", 0), ("nb_positions", 1), ("nb_colors", 1)]
      [] [] [("normalized", true)]
      [.mk "position_set" [] [] [] []
        [.mk "position" [] [("x", 1/2), ("y", 1/4)] [] [] []],
       .mk "color_set" [] [] [] []
        [.mk "color" [] [("r", 0), ("g", 0), ("b", 0)] [] [] []]]]]

/-- A color element in the uppercase encoding R=255, G=128, B=0. -/
def c5_upper : xml_element := .mk "color" []
  [("R", 255), ("G", 128), ("B", 0)] [] [] []

/-- The same color in the lowercase encoding r=1.0, g=0.502, b=0.0. -/
def c5_lower : xml_element := .mk "color" []
  [("r", 1), ("g", 251/500), ("b", 0)] [] [] []

/-- A mesh declaring nb_rows=2, nb_cols=1 (expected vertex count 6) but
only 5 positions. -/
def c6_mesh : xml_element := .mk "mesh"
  [("nb_rows", 2), ("nb_cols", 1), ("nb_positions", 5), ("nb_colors", 6)] [] [] [] []

/-- A mesh whose position count matches but whose color count does not. -/
def c6_mesh_colors : xml_element := .mk "mesh"
  [("nb_rows", 0), ("nb_cols", 0), ("nb_positions", 1), ("nb_colors", 2)] [] [] []
  [.mk "position_set" [] [] [] []
    [.mk "position" [] [("x", 1), ("y", 1)] [] [] []]]

/-- A mesh set containing only `c6_mesh`. -/
def c6_mesh_set : xml_element := .mk "mesh_set" [("nb_meshes", 1)] [] [] [] [c6_mesh]

/-- A mesh with negative `nb_rows`: the declared position and color counts
`-1` equal `(nb_rows + 1) * (nb_cols + 1) = -1`, so the count checks pass
while the reading loops run zero times. -/
def c7_mesh : xml_element := .mk "mesh"
  [("nb_rows", -2), ("nb_cols", 0), ("nb_positions", -1), ("nb_colors", -1)] [] [] []
  [.mk "position_set" [] [] [] []
    [.mk "position" [] [("x", 1), ("y", 1)] [] [] []],
   .mk "color_set" [] [] [] []
    [.mk "color" [] [("r", 0), ("g", 0), ("b", 0)] [] [] []]]

/-- A unified scene containing only `c7_mesh`. -/
def c7_scene_elem : xml_element := .mk "scene"
  [("image_width", 4), ("image_height", 4)] [] [] []
  [.mk "mesh_set" [("nb_meshes", 1)] [] [] [] [c7_mesh]]

/-- The mesh value produced by loading `c7_scene_elem`. -/
def c7_loaded_mesh : gradient_mesh := ⟨-2, 0, [], [], [], []⟩

/-- A scene element with none of the three sections and no dimension
attributes. -/
def c9_scene_elem : xml_element := .mk "scene" [] [] [] [] []

/-- A parent element with no child at all. -/
def c10_empty_parent : xml_element := .mk "left_colors_set" [] [] [] [] []

/-- A parent element with one `left_color` child. -/
def c10_parent : xml_element := .mk "left_colors_set" [] [] [] []
  [.mk "left_color" [] [("r", 0), ("g", 0), ("b", 0), ("globalID", 0)] [] [] []]

section

attribute [local semireducible] Rat.mul Rat.add Rat.sub Rat.inv Rat.ofScientific

/-! ### Helper lemmas -/

theorem read_points_core_ok_length (junk : ℚ) (w h : ℤ) (inorm sw : Bool)
    (name : String) :
    ∀ (n i : ℕ) (cs : List xml_element) (ps : List point_type),
      read_points_core junk w h inorm sw name i n cs = .ok ps →
      ps.length = n := by
  intro n
  induction n with
  | zero =>
    intro i cs ps hh
    simp only [read_points_core] at hh
    cases hh
    rfl
  | succ n ih =>
    intro i cs ps hh
    cases cs with
    | nil => simp [read_points_core] at hh
    | cons c rest =>
      simp only [read_points_core] at hh
      cases hrec : read_points_core junk w h inorm sw name (i + 1) n rest with
      | ok qs =>
        rw [hrec] at hh
        cases hh
        simp [ih (i + 1) rest qs hrec]
      | error err => rw [hrec] at hh; cases hh

theorem read_points_ok_length (junk : ℚ) (w h : ℤ) (parent : xml_element)
    (name : String) (n : ℤ) (inorm sw : Bool) (ps : List point_type)
    (hh : read_points junk w h parent name n inorm sw = .ok ps) :
    ps.length = n.toNat := by
  simp only [read_points] at hh
  by_cases he : (child_elements parent name).isEmpty
  · simp [he] at hh
  · simp only [he, if_false] at hh
    exact read_points_core_ok_length junk w h inorm sw name n.toNat 0 _ ps hh

theorem read_colors_core_ok_length (junk : ℚ) (sw : Bool) (name : String) :
    ∀ (n i : ℕ) (cs : List xml_element) (res : List color_type),
      read_colors_core junk sw name i n cs = .ok res → res.length = n := by
  intro n
  induction n with
  | zero =>
    intro i cs res hh
    simp only [read_colors_core] at hh
    cases hh
    rfl
  | succ n ih =>
    intro i cs res hh
    cases cs with
    | nil => simp [read_colors_core] at hh
    | cons c rest =>
      simp only [read_colors_core] at hh
      cases hrec : read_colors_core junk sw name (i + 1) n rest with
      | ok qs =>
        rw [hrec] at hh
        cases hh
        simp [ih (i + 1) rest qs hrec]
      | error err => rw [hrec] at hh; cases hh

theorem read_colors_ok_length (junk : ℚ) (sw : Bool) (parent : xml_element)
    (name : String) (n : ℤ) (res : List color_type)
    (hh : read_colors junk sw parent name n = .ok res) :
    res.length = n.toNat := by
  simp only [read_colors] at hh
  by_cases he : (child_elements parent name).isEmpty
  · simp [he] at hh
  · simp only [he, if_false] at hh
    exact read_colors_core_ok_length junk sw name n.toNat 0 _ res hh

theorem decode_point_swap (junk : ℚ) (w h : ℤ) (inorm : Bool)
    (e : xml_element) :
    decode_point junk w h inorm true e =
      pswap (decode_point junk w h inorm false e) := rfl

theorem read_points_core_swap (junk : ℚ) (w h : ℤ) (inorm : Bool)
    (name : String) :
    ∀ (n i : ℕ) (cs : List xml_element),
      read_points_core junk w h inorm true name i n cs =
        Except.map (List.map pswap)
          (read_points_core junk w h inorm false name i n cs) := by
  intro n
  induction n with
  | zero => intro i cs; rfl
  | succ n ih =>
    intro i cs
    cases cs with
    | nil => rfl
    | cons c rest =>
      simp only [read_points_core, ih (i + 1) rest]
      cases read_points_core junk w h inorm false name (i + 1) n rest with
      | ok qs => simp [Except.map, decode_point_swap]
      | error err => simp [Except.map]

theorem read_points_swap (junk : ℚ) (w h : ℤ) (parent : xml_element)
    (name : String) (n : ℤ) (inorm : Bool) :
    read_points junk w h parent name n inorm true =
      Except.map (List.map pswap)
        (read_points junk w h parent name n inorm false) := by
  simp only [read_points]
  by_cases he : (child_elements parent name).isEmpty
  · simp [he, Except.map]
  · simp [he, read_points_core_swap]

theorem decode_color_point_swap (junk : ℚ) (e : xml_element) :
    decode_color_point junk true e = cswap (decode_color_point junk false e) := rfl

theorem cswap_param (cp : color_point_type) : cp_param (cswap cp) = cp_param cp := rfl

theorem read_color_points_core_swap (junk : ℚ) (name : String) :
    ∀ (n i : ℕ) (mt : Option ℚ) (cs : List xml_element),
      read_color_points_core junk true name i n mt cs =
        Except.map (fun pm => (pm.1.map cswap, pm.2))
          (read_color_points_core junk false name i n mt cs) := by
  intro n
  induction n with
  | zero => intro i mt cs; rfl
  | succ n ih =>
    intro i mt cs
    cases cs with
    | nil => rfl
    | cons c rest =>
      simp only [read_color_points_core, decode_color_point_swap]
      have hp : (cswap (decode_color_point junk false c)).2.2.2 =
          (decode_color_point junk false c).2.2.2 := rfl
      rw [hp, ih (i + 1)]
      cases read_color_points_core junk false name (i + 1) n
          (upd_max mt (decode_color_point junk false c).2.2.2) rest with
      | ok pm => simp [Except.map]
      | error err => simp [Except.map]

theorem read_color_points_swap (junk : ℚ) (parent : xml_element)
    (name : String) (n : ℤ) :
    read_color_points junk true parent name n =
      Except.map (List.map cswap)
        (read_color_points junk false parent name n) := by
  simp only [read_color_points]
  by_cases he : (child_elements parent name).isEmpty
  · simp [he, Except.map]
  · simp only [he, if_false, read_color_points_core_swap]
    cases read_color_points_core junk false name 0 n.toNat none
        (child_elements parent name) with
    | ok pm =>
      simp only [Except.map]
      cases pm.2 with
      | none => simp
      | some m =>
        by_cases hm : 1 < m
        · simp [hm, List.map_map]
          intro a b c t _
          rfl
        · simp [hm]
    | error err => simp [Except.map]

theorem read_curve_swap (junk : ℚ) (w h : ℤ) (i : ℕ) (ce : xml_element) :
    read_curve junk w h true i ce =
      Except.map legacy_swap_curve (read_curve junk w h false i ce) := by
  cases h1 : first_child ce "control_points_set" with
  | none => simp [read_curve, h1, Except.map]
  | some pset =>
    cases h2 : read_points junk w h pset "control_point"
        (query_int ce "nb_control_points" 0) false false with
    | error err =>
      simp [read_curve, h1, h2, read_points_swap, Except.map]
    | ok cps =>
      cases h3 : first_child ce "left_colors_set" with
      | none => simp [read_curve, h1, h2, h3, read_points_swap, Except.map]
      | some lset =>
        cases h4 : read_color_points junk false lset "left_color"
            (query_int ce "nb_left_colors" 0) with
        | error err =>
          simp [read_curve, h1, h2, h3, h4, read_points_swap,
            read_color_points_swap, Except.map]
        | ok cls =>
          cases h5 : first_child ce "right_colors_set" with
          | none =>
            simp [read_curve, h1, h2, h3, h4, h5, read_points_swap,
              read_color_points_swap, Except.map]
          | some rset =>
            cases h6 : read_color_points junk false rset "right_color"
                (query_int ce "nb_right_colors" 0) with
            | error err =>
              simp [read_curve, h1, h2, h3, h4, h5, h6, read_points_swap,
                read_color_points_swap, Except.map]
            | ok crs =>
              simp [read_curve, h1, h2, h3, h4, h5, h6, read_points_swap,
                read_color_points_swap, Except.map, legacy_swap_curve]

theorem read_curves_core_swap (junk : ℚ) (w h : ℤ) :
    ∀ (n i : ℕ) (cs : List xml_element),
      read_curves_core junk w h true i n cs =
        Except.map (List.map legacy_swap_curve)
          (read_curves_core junk w h false i n cs) := by
  intro n
  induction n with
  | zero => intro i cs; rfl
  | succ n ih =>
    intro i cs
    cases cs with
    | nil => rfl
    | cons c rest =>
      simp only [read_curves_core, read_curve_swap, ih (i + 1)]
      cases read_curve junk w h false i c with
      | error err => rfl
      | ok dc =>
        cases read_curves_core junk w h false (i + 1) n rest with
        | ok dcs => rfl
        | error err => rfl

theorem opt_max_assoc (a b c : Option ℚ) :
    opt_max (opt_max a b) c = opt_max a (opt_max b c) := by
  cases a <;> cases b <;> cases c <;> simp [opt_max, max_assoc]

theorem max?_cons_opt : ∀ (l : List ℚ) (a : ℚ),
    (a :: l).max? = opt_max (some a) l.max? := by
  intro l
  induction l with
  | nil => intro a; rfl
  | cons b l ih =>
    intro a
    have h1 : (a :: b :: l).max? = (max a b :: l).max? := rfl
    rw [h1, ih (max a b), ih b]
    cases l.max? <;> simp [opt_max, max_assoc]

theorem upd_max_eq_opt_max (mt : Option ℚ) (t : ℚ) (ht : 1 < t) :
    upd_max mt t = opt_max mt (some t) := by
  cases mt <;> simp [upd_max, ht, opt_max]

theorem foldl_upd_max : ∀ (ts : List ℚ) (mt : Option ℚ),
    ts.foldl upd_max mt = opt_max mt ((ts.filter (fun t => 1 < t)).max?) := by
  intro ts
  induction ts with
  | nil => intro mt; cases mt <;> rfl
  | cons t ts ih =>
    intro mt
    by_cases ht : 1 < t
    · have hf : (t :: ts).filter (fun t => 1 < t) =
          t :: ts.filter (fun t => 1 < t) := by
        simp [List.filter, ht]
      rw [List.foldl_cons, ih, hf, max?_cons_opt, upd_max_eq_opt_max mt t ht,
        opt_max_assoc]
    · have hf : (t :: ts).filter (fun t => 1 < t) =
          ts.filter (fun t => 1 < t) := by
        simp [List.filter, ht]
      have hu : upd_max mt t = mt := by simp [upd_max, ht]
      rw [List.foldl_cons, ih, hf, hu]

theorem max?_filter_gt_one (l : List ℚ) (m : ℚ)
    (hm : (l.filter (fun t => 1 < t)).max? = some m) : 1 < m := by
  have hmem : m ∈ l.filter (fun t => 1 < t) := List.max?_mem max_choice hm
  have := (List.mem_filter.mp hmem).2
  simpa using this

theorem read_color_points_core_max (junk : ℚ) (sw : Bool) (name : String) :
    ∀ (n i : ℕ) (mt : Option ℚ) (cs : List xml_element)
      (ps : List color_point_type) (m : Option ℚ),
      read_color_points_core junk sw name i n mt cs = .ok (ps, m) →
      m = (ps.map cp_param).foldl upd_max mt := by
  intro n
  induction n with
  | zero =>
    intro i mt cs ps m hh
    simp only [read_color_points_core] at hh
    cases hh
    rfl
  | succ n ih =>
    intro i mt cs ps m hh
    cases cs with
    | nil => simp [read_color_points_core] at hh
    | cons c rest =>
      simp only [read_color_points_core] at hh
      cases hrec : read_color_points_core junk sw name (i + 1) n
          (upd_max mt (decode_color_point junk sw c).2.2.2) rest with
      | ok pm =>
        rw [hrec] at hh
        cases hh
        have := ih (i + 1) _ rest pm.1 pm.2 (by rw [hrec])
        simp [this, cp_param]
      | error err => rw [hrec] at hh; cases hh

theorem read_color_points_eq_normalize (junk : ℚ) (sw : Bool)
    (parent : xml_element) (name : String) (n : ℤ) :
    read_color_points junk sw parent name n =
      Except.map normalize_params
        (read_color_points_raw junk sw parent name n) := by
  simp only [read_color_points, read_color_points_raw]
  by_cases he : (child_elements parent name).isEmpty
  · simp [he, Except.map]
  · simp only [he, if_false]
    cases hc : read_color_points_core junk sw name 0 n.toNat none
        (child_elements parent name) with
    | error err => rfl
    | ok pm =>
      have hmax : pm.2 = ((pm.1.map cp_param).filter (fun t => 1 < t)).max? := by
        have h1 := read_color_points_core_max junk sw name n.toNat 0 none
          (child_elements parent name) pm.1 pm.2 (by rw [hc])
        rw [h1, foldl_upd_max]
        rfl
      simp only [Except.map, normalize_params]
      rw [hmax]
      cases hm : ((pm.1.map cp_param).filter (fun t => 1 < t)).max? with
      | none => simp [hm]
      | some m => simp [hm, max?_filter_gt_one _ m hm]

theorem read_mesh_ok_invariant (junk : ℚ) (w h : ℤ) (i : ℕ) (me : xml_element)
    (gm : gradient_mesh) (hh : read_mesh junk w h i me = .ok gm) :
    mesh_invariant gm := by
  simp only [read_mesh] at hh
  split at hh
  next => cases hh
  next hnp =>
    rw [not_ne_iff] at hnp
    split at hh
    next => cases hh
    next vset hv =>
      split at hh
      next => cases hh
      next positions hps =>
        have hplen := read_points_ok_length _ _ _ _ _ _ _ _ _ hps
        split at hh
        next => cases hh
        next hnc =>
          rw [not_ne_iff] at hnc
          split at hh
          next => cases hh
          next cset hcs =>
            split at hh
            next => cases hh
            next colors hco =>
              have hclen := read_colors_ok_length _ _ _ _ _ _ hco
              split at hh
              next ht =>
                cases hh
                simp only [mesh_invariant]
                refine ⟨by simp [hplen, hnp], by simp [hclen, hplen, hnp, hnc],
                  by simp⟩
              next tset ht =>
                split at hh
                next => cases hh
                next tu htu =>
                  split at hh
                  next => cases hh
                  next tv htv =>
                    cases hh
                    have htul := read_points_ok_length _ _ _ _ _ _ _ _ _ htu
                    have htvl := read_points_ok_length _ _ _ _ _ _ _ _ _ htv
                    simp only [mesh_invariant]
                    refine ⟨by simp [hplen, hnp],
                      by simp [hclen, hplen, hnp, hnc],
                      Or.inr ⟨by simp [htul, hplen], by simp [htvl, hplen]⟩⟩

theorem read_meshes_core_invariant (junk : ℚ) (w h : ℤ) :
    ∀ (n i : ℕ) (cs : List xml_element) (gms : List gradient_mesh),
      read_meshes_core junk w h i n cs = .ok gms →
      ∀ gm ∈ gms, mesh_invariant gm := by
  intro n
  induction n with
  | zero =>
    intro i cs gms hh
    simp only [read_meshes_core] at hh
    cases hh
    intro gm hg
    cases hg
  | succ n ih =>
    intro i cs gms hh
    cases cs with
    | nil => simp [read_meshes_core] at hh
    | cons c rest =>
      simp only [read_meshes_core] at hh
      cases hm : read_mesh junk w h i c with
      | error err => rw [hm] at hh; cases hh
      | ok gm0 =>
        rw [hm] at hh
        cases hrec : read_meshes_core junk w h (i + 1) n rest with
        | ok gms0 =>
          rw [hrec] at hh
          cases hh
          intro gm hg
          cases hg with
          | head => exact read_mesh_ok_invariant _ _ _ _ _ _ hm
          | tail _ h2 => exact ih (i + 1) rest gms0 hrec gm h2
        | error err => rw [hrec] at hh; cases hh

theorem read_gradient_meshes_invariant (junk : ℚ) (w h : ℤ)
    (parent : xml_element) (gms : List gradient_mesh)
    (hh : read_gradient_meshes junk w h parent = .ok gms) :
    ∀ gm ∈ gms, mesh_invariant gm :=
  read_meshes_core_invariant junk w h _ 0 _ gms hh

theorem load_unified_mesh_invariant (junk : ℚ) (tops : List xml_element)
    (s : scene) (hh : load_unified junk tops = .ok s) :
    ∀ gm ∈ s.gradient_meshes, mesh_invariant gm := by
  simp only [load_unified] at hh
  split at hh
  next => cases hh
  next root hf =>
    split at hh
    next => cases hh
    next dcs hd =>
      split at hh
      next => cases hh
      next pcs hp =>
        split at hh
        next => cases hh
        next gms hg =>
          cases hh
          intro gm hgm
          cases hms : first_child root "mesh_set" with
          | none =>
            rw [hms] at hg
            injection hg with hinj
            subst hinj
            cases hgm
          | some ge =>
            rw [hms] at hg
            exact read_gradient_meshes_invariant _ _ _ _ _ hg gm hgm

theorem load_scene_mesh_invariant (junk : ℚ) (inp : Option raw_document)
    (s : scene) (hh : load_scene junk inp = .ok s) :
    ∀ gm ∈ s.gradient_meshes, mesh_invariant gm := by
  cases inp with
  | none => cases hh
  | some raw =>
    cases hraw : raw.parsed with
    | none => simp [load_scene, hraw] at hh
    | some tops =>
      simp only [load_scene, hraw] at hh
      by_cases h1 : raw.first_line = "<!DOCTYPE SceneXML>"
      · rw [if_pos h1] at hh
        exact load_unified_mesh_invariant junk tops s hh
      · rw [if_neg h1] at hh
        by_cases h2 : raw.first_line = "<!DOCTYPE CurveSetXML>"
        · rw [if_pos h2] at hh
          simp only [load_legacy] at hh
          split at hh
          next => cases hh
          next root hhd =>
            split at hh
            next => cases hh
            next dcs hdc =>
              cases hh
              intro gm hgm
              cases hgm
        · rw [if_neg h2] at hh
          cases hh

theorem read_mesh_ok_counts (junk : ℚ) (w h : ℤ) (i : ℕ) (me : xml_element)
    (gm : gradient_mesh) (hh : read_mesh junk w h i me = .ok gm) :
    query_int me "nb_positions" 0 =
      (query_int me "nb_rows" 0 + 1) * (query_int me "nb_cols" 0 + 1)
    ∧ query_int me "nb_colors" 0 =
      (query_int me "nb_rows" 0 + 1) * (query_int me "nb_cols" 0 + 1) := by
  simp only [read_mesh] at hh
  split at hh
  next => cases hh
  next hnp =>
    rw [not_ne_iff] at hnp
    split at hh
    next => cases hh
    next vset hv =>
      split at hh
      next => cases hh
      next positions hps =>
        split at hh
        next => cases hh
        next hnc =>
          rw [not_ne_iff] at hnc
          exact ⟨hnp, hnc⟩

/-! ### Claim theorems -/

/-- C1: for every diffusion curve read in the legacy dialect (swap flag
active), the resulting curve holds the left colors and left boundary
condition read from the right_colors_set and vice versa (the side exchange
happening after reading), each control point has x and y exchanged, and
each color entry has its first and third channels exchanged; in particular
a legacy curve with control point (3, 5) and left color R=255, G=0, B=0
yields control point (5, 3) and right-side color (0, 0, 1). -/
theorem claim_c1_legacy_swap :
    (∀ (junk : ℚ) (w h : ℤ) (parent : xml_element),
      read_diffusion_curves junk w h parent true =
        Except.map (List.map legacy_swap_curve)
          (read_diffusion_curves junk w h parent false))
    ∧ read_diffusion_curves 0 10 20 c1_root true =
        .ok [⟨[(5, 3)], [(0, 0, 0, 0)], [(0, 0, 1, 0)], .Dirichlet, .Dirichlet⟩] := by
  constructor
  · intro junk w h parent
    simp [read_diffusion_curves, read_curves_core_swap]
  · decide

/-- C2: `read_color_points` equals the raw element-by-element read followed
by the sequence-wide normalization pass dividing every parameter by the
maximum parameter value among entries exceeding 1 (a no-op when no entry
exceeds 1); in particular parameters [0, 2, 4] become [0, 0.5, 1] and
[0, 0.3, 0.9] stay unchanged. -/
theorem claim_c2_param_normalization :
    (∀ (junk : ℚ) (sw : Bool) (parent : xml_element) (name : String) (n : ℤ),
      read_color_points junk sw parent name n =
        Except.map normalize_params
          (read_color_points_raw junk sw parent name n))
    ∧ read_color_points_raw 0 false c2_set_a "left_color" 3 =
        .ok [(1, 0, 0, 0), (1, 0, 0, 2), (1, 0, 0, 4)]
    ∧ read_color_points 0 false c2_set_a "left_color" 3 =
        .ok [(1, 0, 0, 0), (1, 0, 0, 1/2), (1, 0, 0, 1)]
    ∧ read_color_points_raw 0 false c2_set_b "left_color" 3 =
        .ok [(1, 0, 0, 0), (1, 0, 0, 3/10), (1, 0, 0, 9/10)]
    ∧ read_color_points 0 false c2_set_b "left_color" 3 =
        .ok [(1, 0, 0, 0), (1, 0, 0, 3/10), (1, 0, 0, 9/10)] :=
  ⟨read_color_points_eq_normalize, by decide, by decide, by decide, by decide⟩

/-- C3 (code bug): the claim states that a missing `x` attribute decodes
to x = 0.0, but the C++ reader queries into an uninitialised `point_type`
local and tinyxml2 leaves the output unchanged when the attribute is
absent, so the stored coordinate is the indeterminate initial value
(modelled by the junk parameter): with junk 7 the element with only y=5
decodes to (7, 5), with junk 9 to (9, 5), not to (0, 5). -/
theorem claim_c3_missing_attr_junk :
    read_points 7 0 0 c3_point_set "control_point" 1 false false = .ok [(7, 5)]
    ∧ read_points 9 0 0 c3_point_set "control_point" 1 false false = .ok [(9, 5)]
    ∧ (7 : ℚ) ≠ 0 := by decide

/-- C4: with the normalized flag set, a decoded point is the raw (x, y)
with x multiplied by the image height and y multiplied by the image width;
in particular a normalized mesh position (0.5, 0.25) in a scene of width
200 and height 100 loads as the absolute position (50, 50). -/
theorem claim_c4_normalized_scaling :
    (∀ (junk : ℚ) (w h : ℤ) (e : xml_element),
      decode_point junk w h true false e =
        (query_num e "x" junk * (h : ℚ), query_num e "y" junk * (w : ℚ)))
    ∧ load_scene 0 (some ⟨"<!DOCTYPE SceneXML>", some [c4_scene_elem]⟩) =
        .ok ⟨[], [], [⟨0, 0, [(50, 50)], [(0, 0, 0)], [], []⟩], 100, 200⟩ := by
  constructor
  · intro junk w h e
    rfl
  · decide

/-- C5: each color channel is decoded independently, the uppercase
attribute (divided by 255) taking precedence and the lowercase attribute
being taken as-is otherwise; R=255, G=128, B=0 decodes to (1, 128/255, 0),
within 1/1000 of the decoding (1, 0.502, 0) of the lowercase encoding
r=1.0, g=0.502, b=0.0. -/
theorem claim_c5_channel_decoding :
    (∀ (junk : ℚ) (e : xml_element),
      decode_color junk false e =
        (channel_rule (attr_find e.num_attrs "R") (attr_find e.num_attrs "r") junk,
         channel_rule (attr_find e.num_attrs "G") (attr_find e.num_attrs "g") junk,
         channel_rule (attr_find e.num_attrs "B") (attr_find e.num_attrs "b") junk))
    ∧ decode_color 0 false c5_upper = (1, 128/255, 0)
    ∧ decode_color 0 false c5_lower = (1, 251/500, 0)
    ∧ |(decode_color 0 false c5_upper).1 - (decode_color 0 false c5_lower).1| ≤ 1/1000
    ∧ |(decode_color 0 false c5_upper).2.1 - (decode_color 0 false c5_lower).2.1| ≤ 1/1000
    ∧ |(decode_color 0 false c5_upper).2.2 - (decode_color 0 false c5_lower).2.2| ≤ 1/1000 := by
  refine ⟨?_, by decide, by decide, by decide, by decide, by decide⟩
  intro junk e
  simp only [decode_color, decode_channel, channel_rule, has_num_attr, query_num]
  cases attr_find e.num_attrs "R" <;> cases attr_find e.num_attrs "G" <;>
    cases attr_find e.num_attrs "B" <;> simp

/-- C6: the declared position count and declared color count of a mesh are
each checked against the expected vertex count (rows+1)*(cols+1); a
position-count mismatch fails with an error naming the mesh index, a
color-count mismatch makes the mesh unreadable (never ok), and concretely
a mesh with nb_rows=2, nb_cols=1 and 5 declared positions fails with the
position count mismatch at index 0, while a matching position count with
a wrong color count fails with the color count mismatch at index 0. -/
theorem claim_c6_count_mismatch :
    (∀ (junk : ℚ) (w h : ℤ) (i : ℕ) (me : xml_element),
      query_int me "nb_positions" 0 ≠
        (query_int me "nb_rows" 0 + 1) * (query_int me "nb_cols" 0 + 1) →
      read_mesh junk w h i me = .error (.position_count_mismatch i))
    ∧ (∀ (junk : ℚ) (w h : ℤ) (i : ℕ) (me : xml_element),
      query_int me "nb_colors" 0 ≠
        (query_int me "nb_rows" 0 + 1) * (query_int me "nb_cols" 0 + 1) →
      ∀ gm : gradient_mesh, read_mesh junk w h i me ≠ .ok gm)
    ∧ read_gradient_meshes 0 0 0 c6_mesh_set = .error (.position_count_mismatch 0)
    ∧ read_mesh 0 0 0 0 c6_mesh_colors = .error (.color_count_mismatch 0) := by
  refine ⟨?_, ?_, by decide, by decide⟩
  · intro junk w h i me hne
    simp [read_mesh, hne]
  · intro junk w h i me hne gm hcontra
    exact hne (read_mesh_ok_counts junk w h i me gm hcontra).2

/-- C6 witness: the first conjunct applied at a concrete mismatching mesh. -/
theorem claim_c6_count_mismatch_witness :
    read_mesh 0 0 0 3 c6_mesh = .error (.position_count_mismatch 3) :=
  claim_c6_count_mismatch.1 0 0 0 3 c6_mesh (by decide)

/-- C7 counterexample: a mesh with nb_rows=-2, nb_cols=0 and declared
counts -1 loads successfully with empty positions, so the positions length
(a natural number) does not equal (num_rows+1)*(num_cols+1) = -1. -/
theorem claim_c7_shape_counterexample :
    load_scene 0 (some ⟨"<!DOCTYPE SceneXML>", some [c7_scene_elem]⟩) =
      .ok ⟨[], [], [c7_loaded_mesh], 4, 4⟩
    ∧ ¬((c7_loaded_mesh.positions.length : ℤ) =
        (c7_loaded_mesh.num_rows + 1) * (c7_loaded_mesh.num_cols + 1)) := by
  decide

/-- C7 (amended): for every gradient mesh of a successfully loaded scene,
positions and colors both have length ((num_rows+1)*(num_cols+1)).toNat
(the expected vertex count clamped at zero, which equals the expected
vertex count whenever it is non-negative), and the tangent sequences are
either both empty or both as long as the positions. -/
theorem claim_c7_mesh_shape (junk : ℚ) (inp : Option raw_document) (s : scene)
    (hh : load_scene junk inp = .ok s) :
    ∀ gm ∈ s.gradient_meshes,
      gm.positions.length = ((gm.num_rows + 1) * (gm.num_cols + 1)).toNat
      ∧ gm.colors.length = gm.positions.length
      ∧ ((gm.tangents_u = [] ∧ gm.tangents_v = [])
         ∨ (gm.tangents_u.length = gm.positions.length
            ∧ gm.tangents_v.length = gm.positions.length)) :=
  load_scene_mesh_invariant junk inp s hh

/-- C7 witness: the amended theorem applied to the concrete loaded scene. -/
theorem claim_c7_mesh_shape_witness :
    c7_loaded_mesh.positions.length =
      ((c7_loaded_mesh.num_rows + 1) * (c7_loaded_mesh.num_cols + 1)).toNat
    ∧ c7_loaded_mesh.colors.length = c7_loaded_mesh.positions.length
    ∧ ((c7_loaded_mesh.tangents_u = [] ∧ c7_loaded_mesh.tangents_v = [])
       ∨ (c7_loaded_mesh.tangents_u.length = c7_loaded_mesh.positions.length
          ∧ c7_loaded_mesh.tangents_v.length = c7_loaded_mesh.positions.length)) :=
  claim_c7_mesh_shape 0 (some ⟨"<!DOCTYPE SceneXML>", some [c7_scene_elem]⟩)
    ⟨[], [], [c7_loaded_mesh], 4, 4⟩ (by decide) c7_loaded_mesh (by decide)

/-- C8: the loader selects the dialect solely from the first line:
SceneXML runs the unified parser, CurveSetXML the legacy parser, any other
first line fails with an unrecognized-doctype error, an unopenable file
and a failed XML parse each fail with their own error, and no scene is
returned in any failing case. -/
theorem claim_c8_dialect_dispatch :
    (∀ junk : ℚ, load_scene junk none = .error .cannot_open_file)
    ∧ (∀ (junk : ℚ) (fl : String),
        load_scene junk (some ⟨fl, none⟩) = .error .cannot_load_xml)
    ∧ (∀ (junk : ℚ) (fl : String) (tops : List xml_element),
        fl ≠ "<!DOCTYPE SceneXML>" → fl ≠ "<!DOCTYPE CurveSetXML>" →
        load_scene junk (some ⟨fl, some tops⟩) = .error .unrecognized_doctype)
    ∧ (∀ (junk : ℚ) (tops : List xml_element),
        load_scene junk (some ⟨"<!DOCTYPE SceneXML>", some tops⟩) =
          load_unified junk tops)
    ∧ (∀ (junk : ℚ) (tops : List xml_element),
        load_scene junk (some ⟨"<!DOCTYPE CurveSetXML>", some tops⟩) =
          load_legacy junk tops) := by
  refine ⟨fun junk => rfl, fun junk fl => rfl, ?_, ?_, ?_⟩
  · intro junk fl tops h1 h2
    simp [load_scene, h1, h2]
  · intro junk tops
    simp [load_scene]
  · intro junk tops
    simp [load_scene]

/-- C8 witness: an unrecognized first line fails the load. -/
theorem claim_c8_dialect_dispatch_witness :
    load_scene 0 (some ⟨"<!DOCTYPE OtherXML>", some []⟩) =
      .error .unrecognized_doctype :=
  claim_c8_dialect_dispatch.2.2.1 0 "<!DOCTYPE OtherXML>" [] (by decide) (by decide)

/-- C9: a unified document whose scene element has no curve_set,
poisson_curve_set or mesh_set child loads successfully into a scene with
three empty collections and the declared image dimensions, an absent
dimension attribute yielding 0. -/
theorem claim_c9_empty_sections :
    (∀ (junk : ℚ) (tops : List xml_element) (root : xml_element),
      tops.find? (fun e => e.tag == "scene") = some root →
      first_child root "curve_set" = none →
      first_child root "poisson_curve_set" = none →
      first_child root "mesh_set" = none →
      load_scene junk (some ⟨"<!DOCTYPE SceneXML>", some tops⟩) =
        .ok ⟨[], [], [], query_int root "image_height" 0,
             query_int root "image_width" 0⟩)
    ∧ (∀ (e : xml_element) (n : String),
        attr_find e.int_attrs n = none → query_int e n 0 = 0) := by
  constructor
  · intro junk tops root hf h1 h2 h3
    simp [load_scene, load_unified, hf, h1, h2, h3]
  · intro e n hn
    simp [query_int, hn]

/-- C9 witness: the empty scene element loads with empty collections and
zero dimensions. -/
theorem claim_c9_empty_sections_witness :
    load_scene 0 (some ⟨"<!DOCTYPE SceneXML>", some [c9_scene_elem]⟩) =
      .ok ⟨[], [], [], 0, 0⟩ :=
  claim_c9_empty_sections.1 0 [c9_scene_elem] c9_scene_elem rfl rfl rfl rfl

/-- C10: each primitive reader fails with a missing-tag error when the
parent has no child with the requested tag, whatever the requested count,
and returns an empty sequence without error when such a child exists and
the requested count is zero or negative. -/
theorem claim_c10_empty_and_nonpositive :
    (∀ (junk : ℚ) (w h : ℤ) (parent : xml_element) (name : String) (n : ℤ)
        (inorm sw : Bool),
      (child_elements parent name = [] →
        read_points junk w h parent name n inorm sw = .error (.cannot_read name))
      ∧ (child_elements parent name ≠ [] → n ≤ 0 →
          read_points junk w h parent name n inorm sw = .ok []))
    ∧ (∀ (junk : ℚ) (sw : Bool) (parent : xml_element) (name : String) (n : ℤ),
      (child_elements parent name = [] →
        read_colors junk sw parent name n = .error (.cannot_read name))
      ∧ (child_elements parent name ≠ [] → n ≤ 0 →
          read_colors junk sw parent name n = .ok []))
    ∧ (∀ (junk : ℚ) (sw : Bool) (parent : xml_element) (name : String) (n : ℤ),
      (child_elements parent name = [] →
        read_color_points junk sw parent name n = .error (.cannot_read name))
      ∧ (child_elements parent name ≠ [] → n ≤ 0 →
          read_color_points junk sw parent name n = .ok [])) := by
  refine ⟨?_, ?_, ?_⟩
  · intro junk w h parent name n inorm sw
    constructor
    · intro he
      simp [read_points, he]
    · intro hne hn
      simp [read_points, List.isEmpty_iff, hne, Int.toNat_of_nonpos hn,
        read_points_core]
  · intro junk sw parent name n
    constructor
    · intro he
      simp [read_colors, he]
    · intro hne hn
      simp [read_colors, List.isEmpty_iff, hne, Int.toNat_of_nonpos hn,
        read_colors_core]
  · intro junk sw parent name n
    constructor
    · intro he
      simp [read_color_points, he]
    · intro hne hn
      simp [read_color_points, List.isEmpty_iff, hne, Int.toNat_of_nonpos hn,
        read_color_points_core]

/-- C10 witness: a missing child tag fails even for a positive count, and
a present child with a negative count yields the empty sequence. -/
theorem claim_c10_empty_and_nonpositive_witness :
    read_color_points 0 false c10_empty_parent "left_color" 5 =
      .error (.cannot_read "left_color")
    ∧ read_color_points 0 false c10_parent "left_color" (-3) = .ok [] :=
  ⟨(claim_c10_empty_and_nonpositive.2.2 0 false c10_empty_parent "left_color" 5).1
      rfl,
   (claim_c10_empty_and_nonpositive.2.2 0 false c10_parent "left_color" (-3)).2
      (List.cons_ne_nil _ _) (by decide)⟩

end
